import Mathlib

/-
Verification of the block/encoder/classifier architecture defined in
src/classifier.py.

The development has two layers, both translated from the source:

1. A shape semantics: every layer is a function from input shapes to
   `Option` output shapes, `none` modelling the runtime errors the tensor
   library raises on mismatched dimensions (channel-count checks of
   convolution and batch normalization, feature checks of linear layers,
   broadcasting rules of elementwise product and in-place sum, the element
   count check of view).  Configuration records mirror the constructor
   arguments of each Python class.

2. A value semantics: tensors carry their shape and a total entry
   function into the reals; convolution, batch normalization (inference
   form, with the inverse standard deviation stored as the derived
   parameter), linear layers, ReLU, sigmoid, adaptive average pooling and
   flattening are given their numeric meaning, and each block forward is
   a direct transcription of the corresponding Python forward method.
-/

/-- Shape of a rank-4 tensor (batch, channels, height, width). -/
structure Shape4 where
  batch : Nat
  channels : Nat
  height : Nat
  width : Nat
deriving DecidableEq, Repr

/-- Shape of a rank-2 tensor (batch, features), produced by Flatten. -/
structure Shape2 where
  batch : Nat
  features : Nat
deriving DecidableEq, Repr

/-- Configuration of nn.Conv2d as used in the source (square kernels). -/
structure Conv2dCfg where
  cin : Nat
  cout : Nat
  kernel : Nat
  stride : Nat
  padding : Nat
  groups : Nat
deriving DecidableEq, Repr

/-- Shape semantics of nn.Conv2d: the input must supply exactly `cin`
channels, the group count must divide both channel counts, the stride must
be positive and the padded input must be at least as large as the kernel;
the output spatial size is the usual floor formula. -/
def conv2dShape (c : Conv2dCfg) (s : Shape4) : Option Shape4 :=
  if s.channels = c.cin ∧ c.cin % c.groups = 0 ∧ c.cout % c.groups = 0
      ∧ 0 < c.stride ∧ c.kernel ≤ s.height + 2 * c.padding
      ∧ c.kernel ≤ s.width + 2 * c.padding then
    some ⟨s.batch, c.cout,
          (s.height + 2 * c.padding - c.kernel) / c.stride + 1,
          (s.width + 2 * c.padding - c.kernel) / c.stride + 1⟩
  else none

/-- Shape semantics of nn.BatchNorm2d with `features` features: the channel
count of the input must match, and the shape is preserved. -/
def bnShape (features : Nat) (s : Shape4) : Option Shape4 :=
  if s.channels = features then some s else none

/-- Shape semantics of nn.Linear from `inF` to `outF` features. -/
def linearShape (inF outF : Nat) (s : Shape2) : Option Shape2 :=
  if s.features = inF then some ⟨s.batch, outF⟩ else none

/-- Broadcasting of one dimension pair: equal sizes, or one of them is 1. -/
def broadcast2 (a b : Nat) : Option Nat :=
  if a = b then some a else if a = 1 then some b else if b = 1 then some a else none

/-- Shape of an elementwise product with full two-sided broadcasting, used
for res_out * se_out in SE_ResModule.forward. -/
def broadcastMulShape (a b : Shape4) : Option Shape4 := do
  let batch ← broadcast2 a.batch b.batch
  let channels ← broadcast2 a.channels b.channels
  let height ← broadcast2 a.height b.height
  let width ← broadcast2 a.width b.width
  pure ⟨batch, channels, height, width⟩

/-- Shape of an in-place sum `out += residual`: every dimension of the
right operand must equal the corresponding dimension of `out` or be 1, and
the result keeps the shape of `out`. -/
def inplaceAddShape (out residual : Shape4) : Option Shape4 :=
  if (residual.batch = out.batch ∨ residual.batch = 1)
      ∧ (residual.channels = out.channels ∨ residual.channels = 1)
      ∧ (residual.height = out.height ∨ residual.height = 1)
      ∧ (residual.width = out.width ∨ residual.width = 1) then
    some out
  else none

/-- Configuration of SqueezeExcitationBlock: the stored channel count and
the derived reduced channel size. -/
structure SECfg where
  inChannels : Nat
  reducedChannelSize : Nat
deriving DecidableEq, Repr

/-- SqueezeExcitationBlock.__init__: reduced_channel_size is the floor
division of in_channels by reduction_ratio; no validation is performed. -/
def SECfg.build (inChannels reductionRatio : Nat) : SECfg :=
  ⟨inChannels, inChannels / reductionRatio⟩

/-- Shape semantics of SqueezeExcitationBlock.forward: adaptive average
pool to (1,1), flatten, linear to the reduced size, ReLU, linear back to
in_channels, sigmoid, then a view to (batch, channels, 1, 1) that checks
the element counts agree. -/
def seShape (c : SECfg) (s : Shape4) : Option Shape4 :=
  let pooled : Shape4 := ⟨s.batch, s.channels, 1, 1⟩
  let flat : Shape2 := ⟨pooled.batch, pooled.channels * pooled.height * pooled.width⟩
  ((linearShape c.inChannels c.reducedChannelSize flat).bind
      (linearShape c.reducedChannelSize c.inChannels)).bind
    fun v =>
      if v.batch * v.features = s.batch * s.channels * 1 * 1 then
        some ⟨s.batch, s.channels, 1, 1⟩
      else none

/-- Configuration of the transform path held by a ResidualBlock: either a
BasicBlock or a BottleneckBlock (the two block classes of the source). -/
inductive TransformCfg where
  | basic (cin cout stride groups : Nat)
  | bottleneck (cin cout stride groups mid : Nat)
deriving DecidableEq, Repr

/-- BottleneckBlock.__init__ configuration: when no mid_channels argument
is given it defaults to in_channels floor-divided by 2. -/
def bottleneckBuildCfg (cin cout stride groups : Nat) (mid : Option Nat) : TransformCfg :=
  .bottleneck cin cout stride groups (mid.getD (cin / 2))

/-- Shape semantics of BasicBlock.forward: 3x3 conv (given stride and
groups) + batch norm + ReLU, then 3x3 conv stride 1 + batch norm. -/
def basicBlockShape (cin cout stride groups : Nat) (s : Shape4) : Option Shape4 :=
  ((((conv2dShape ⟨cin, cout, 3, stride, 1, groups⟩ s).bind
        (bnShape cout)).bind
      (conv2dShape ⟨cout, cout, 3, 1, 1, groups⟩)).bind
    (bnShape cout))

/-- Shape semantics of BottleneckBlock.forward as written in the source:
conv1 is a 1x1 conv to `mid` channels followed, in the source, by
BatchNorm2d(out_channels); conv2 is a 3x3 grouped conv at `mid` channels
with batch norm over `mid`; conv3 is a 1x1 conv to `cout` with batch norm
over `cout`. -/
def bottleneckShape (cin cout stride groups mid : Nat) (s : Shape4) : Option Shape4 :=
  ((((((conv2dShape ⟨cin, mid, 1, 1, 0, 1⟩ s).bind
            (bnShape cout)).bind
          (conv2dShape ⟨mid, mid, 3, stride, 1, groups⟩)).bind
        (bnShape mid)).bind
      (conv2dShape ⟨mid, cout, 1, 1, 0, 1⟩)).bind
    (bnShape cout))

/-- Shape semantics of the transform path of a residual block. -/
def TransformCfg.shape : TransformCfg → Shape4 → Option Shape4
  | .basic cin cout stride groups, s => basicBlockShape cin cout stride groups s
  | .bottleneck cin cout stride groups mid, s => bottleneckShape cin cout stride groups mid s

/-- Configuration of the downsample path of a ResidualBlock: a 1x1
convolution followed by batch normalization. -/
structure DownCfg where
  conv : Conv2dCfg
  bnFeatures : Nat
deriving DecidableEq, Repr

/-- Shape semantics of the downsample path. -/
def DownCfg.shape (d : DownCfg) (s : Shape4) : Option Shape4 :=
  (conv2dShape d.conv s).bind (bnShape d.bnFeatures)

/-- Configuration of a ResidualBlock: channel counts, transform path and
optional downsample path. -/
structure ResidualBlockCfg where
  cin : Nat
  cout : Nat
  block : TransformCfg
  downsample : Option DownCfg
deriving DecidableEq, Repr

/-- ResidualBlock.__init__: stride is 2 when the channel counts differ and
1 otherwise; the downsample path (1x1 conv with that stride, then batch
norm over `cout`) is created exactly when the stride is not 1; the
transform defaults to BasicBlock(cin, cout, stride) when none is given. -/
def ResidualBlockCfg.build (cin cout : Nat) (blk : Option TransformCfg) : ResidualBlockCfg :=
  let stride := if cin ≠ cout then 2 else 1
  { cin := cin
    cout := cout
    downsample := if stride ≠ 1 then some ⟨⟨cin, cout, 1, stride, 0, 1⟩, cout⟩ else none
    block := blk.getD (.basic cin cout stride 1) }

/-- Shape semantics of ResidualBlock.forward: transform output plus the
(possibly downsampled) shortcut, then ReLU (shape preserving). -/
def ResidualBlockCfg.shape (r : ResidualBlockCfg) (s : Shape4) : Option Shape4 := do
  let out ← r.block.shape s
  let residual ← match r.downsample with
    | some d => d.shape s
    | none => pure s
  inplaceAddShape out residual

/-- Configuration of SE_ResModule: the wrapped residual block and the
squeeze-excitation block built over its out_channels. -/
structure SEModCfg where
  block : ResidualBlockCfg
  se : SECfg
deriving DecidableEq, Repr

/-- SE_ResModule.__init__: the gate is a SqueezeExcitationBlock over the
wrapped block's out_channels with the given reduction ratio. -/
def SEModCfg.build (b : ResidualBlockCfg) (reductionRatio : Nat) : SEModCfg :=
  ⟨b, SECfg.build b.cout reductionRatio⟩

/-- Shape semantics of SE_ResModule.forward: the wrapped block's full
forward, the gate computed from that output, a broadcast product, then the
wrapped block's own downsample (or the input) added in place, then ReLU. -/
def SEModCfg.shape (m : SEModCfg) (s : Shape4) : Option Shape4 := do
  let resOut ← m.block.shape s
  let gate ← seShape m.se resOut
  let out ← broadcastMulShape resOut gate
  let residual ← match m.block.downsample with
    | some d => d.shape s
    | none => pure s
  inplaceAddShape out residual

/-- ResNeXtBlock.__init__: a ResidualBlock whose transform is a
BottleneckBlock with mid_channels = cin // 2, groups = cardinality and
stride = cin // cout (floor divisions, exactly as in the source). -/
def ResNeXtBlockCfg (cin cout cardinality : Nat) : ResidualBlockCfg :=
  ResidualBlockCfg.build cin cout
    (some (bottleneckBuildCfg cin cout (cin / cout) cardinality (some (cin / 2))))

/-- ResNeXtBlock built with the default cardinality of 32. -/
def ResNeXtBlockCfgDefault (cin cout : Nat) : ResidualBlockCfg :=
  ResNeXtBlockCfg cin cout 32

/-- One stage of the resnet and se_resnet stacks: a plain ResidualBlock
with the default BasicBlock transform. -/
def stageResidual (cin cout : Nat) : ResidualBlockCfg :=
  ResidualBlockCfg.build cin cout none

/-- Shape semantics of backends.resnet: 1x1 conv 3 to 3, then five
residual stages 3-64-128-256-256-512. -/
def resnetShape (s : Shape4) : Option Shape4 :=
  (((((conv2dShape ⟨3, 3, 1, 1, 0, 1⟩ s).bind
            (stageResidual 3 64).shape).bind
          (stageResidual 64 128).shape).bind
        (stageResidual 128 256).shape).bind
      (stageResidual 256 256).shape).bind
    (stageResidual 256 512).shape

/-- Shape semantics of backends.se_resnet: 1x1 conv 3 to 3, then five
SE_ResModule-wrapped residual stages (default reduction ratio 16). -/
def seResnetShape (s : Shape4) : Option Shape4 :=
  (((((conv2dShape ⟨3, 3, 1, 1, 0, 1⟩ s).bind
            (SEModCfg.build (stageResidual 3 64) 16).shape).bind
          (SEModCfg.build (stageResidual 64 128) 16).shape).bind
        (SEModCfg.build (stageResidual 128 256) 16).shape).bind
      (SEModCfg.build (stageResidual 256 256) 16).shape).bind
    (SEModCfg.build (stageResidual 256 512) 16).shape

/-- Shape semantics of backends.se_resneXt: 1x1 conv 3 to 3, then five
SE_ResModule-wrapped ResNeXt stages, the first with cardinality 1. -/
def seResneXtShape (s : Shape4) : Option Shape4 :=
  (((((conv2dShape ⟨3, 3, 1, 1, 0, 1⟩ s).bind
            (SEModCfg.build (ResNeXtBlockCfg 3 64 1) 16).shape).bind
          (SEModCfg.build (ResNeXtBlockCfgDefault 64 128) 16).shape).bind
        (SEModCfg.build (ResNeXtBlockCfgDefault 128 256) 16).shape).bind
      (SEModCfg.build (ResNeXtBlockCfgDefault 256 256) 16).shape).bind
    (SEModCfg.build (ResNeXtBlockCfgDefault 256 512) 16).shape

/-- Name of the class attribute backends.resnet. -/
def resnetName : String := "resnet"

/-- Name of the class attribute backends.se_resnet. -/
def seResnetName : String := "se_resnet"

/-- Name of the class attribute backends.se_resneXt. -/
def seResneXtName : String := "se_resneXt"

/-- Name of the attribute object_classifier.__init__ reads from backends. -/
def defaultEncoderName : String := "encoder_se_resnet"

/-- Attribute lookup on the class `backends`: its class body defines
exactly the attributes resnet, se_resnet and se_resneXt; looking up any
other name raises AttributeError, modelled as `none`. -/
def backendsGetattr (name : String) : Option (Shape4 → Option Shape4) :=
  if name = resnetName then some resnetShape
  else if name = seResnetName then some seResnetShape
  else if name = seResneXtName then some seResneXtShape
  else none

/-- The encoder selected by object_classifier.__init__: a caller-supplied
encoder is kept as is; otherwise the code reads the class attribute named
encoder_se_resnet from backends. -/
def objectClassifierSelectEncoder (encoder : Option (Shape4 → Option Shape4)) :
    Option (Shape4 → Option Shape4) :=
  match encoder with
  | some e => some e
  | none => backendsGetattr defaultEncoderName

/-- Shape semantics of the fixed decoder head of object_classifier:
adaptive average pool to (1,1), flatten, then the linear chain
512-256-128-64-32-1 with ReLU between layers and a final sigmoid (pool,
ReLU and sigmoid preserve shapes). -/
def decoderShape (s : Shape4) : Option Shape2 :=
  let pooled : Shape4 := ⟨s.batch, s.channels, 1, 1⟩
  let flat : Shape2 := ⟨pooled.batch, pooled.channels * pooled.height * pooled.width⟩
  ((((linearShape 512 256 flat).bind
        (linearShape 256 128)).bind
      (linearShape 128 64)).bind
    (linearShape 64 32)).bind
    (linearShape 32 1)

/-- A rank-4 tensor: its shape and a total entry function into the reals.
Entries outside the shape bounds are irrelevant to the semantics. -/
structure Tensor4 where
  batch : Nat
  channels : Nat
  height : Nat
  width : Nat
  data : Nat → Nat → Nat → Nat → ℝ

/-- Bounds-checked access, 0 outside the shape; used by convolution, where
it also realizes zero padding. -/
def Tensor4.entry (t : Tensor4) (b c i j : Nat) : ℝ :=
  if b < t.batch ∧ c < t.channels ∧ i < t.height ∧ j < t.width then t.data b c i j else 0

/-- A rank-2 tensor (batch, features), the result of Flatten. -/
structure Vec2 where
  batch : Nat
  features : Nat
  data : Nat → Nat → ℝ

/-- Parameters of nn.Conv2d as used in the source: square kernel, no bias
(every convolution inside the blocks is created with bias=False). The
weight is indexed as weight[cout][cin within group][kh][kw]. -/
structure Conv2dParams where
  cin : Nat
  cout : Nat
  kernel : Nat
  stride : Nat
  padding : Nat
  groups : Nat
  weight : Nat → Nat → Nat → Nat → ℝ

/-- Value semantics of nn.Conv2d: grouped 2D cross-correlation with zero
padding and the floor output-size formula. -/
def conv2dApply (p : Conv2dParams) (x : Tensor4) : Tensor4 :=
  { batch := x.batch
    channels := p.cout
    height := (x.height + 2 * p.padding - p.kernel) / p.stride + 1
    width := (x.width + 2 * p.padding - p.kernel) / p.stride + 1
    data := fun b co i j =>
      ∑ ci ∈ Finset.range (p.cin / p.groups), ∑ kh ∈ Finset.range p.kernel,
        ∑ kw ∈ Finset.range p.kernel,
          p.weight co ci kh kw *
            (if p.padding ≤ i * p.stride + kh ∧ p.padding ≤ j * p.stride + kw then
              x.entry b (co / (p.cout / p.groups) * (p.cin / p.groups) + ci)
                (i * p.stride + kh - p.padding) (j * p.stride + kw - p.padding)
            else 0) }

/-- The four per-channel parameter vectors of a batch normalization layer.
invStd stands for the inverse standard deviation (running_var + eps) to
the power -1/2, stored directly as the derived parameter. -/
structure BNData where
  weight : Nat → ℝ
  bias : Nat → ℝ
  runningMean : Nat → ℝ
  invStd : Nat → ℝ

/-- Parameters of nn.BatchNorm2d. -/
structure BatchNorm2dParams where
  numFeatures : Nat
  weight : Nat → ℝ
  bias : Nat → ℝ
  runningMean : Nat → ℝ
  invStd : Nat → ℝ

/-- Packaging of BNData into a batch normalization layer over `features`
features. -/
def mkBN (features : Nat) (d : BNData) : BatchNorm2dParams :=
  ⟨features, d.weight, d.bias, d.runningMean, d.invStd⟩

/-- Value semantics of nn.BatchNorm2d in inference form: per channel,
scale the centered entry by the inverse standard deviation and the learned
weight, then shift by the learned bias. -/
def batchNorm2dApply (p : BatchNorm2dParams) (x : Tensor4) : Tensor4 :=
  { x with data := fun b c i j =>
      p.weight c * (x.data b c i j - p.runningMean c) * p.invStd c + p.bias c }

/-- Value semantics of ReLU on a rank-4 tensor. -/
def reluT (x : Tensor4) : Tensor4 :=
  { x with data := fun b c i j => max 0 (x.data b c i j) }

/-- Value semantics of the in-place sum `out += residual` for operands of
equal shape (the only way the source uses it): pointwise addition, with
the shape of `out` kept. -/
def addInplace (out residual : Tensor4) : Tensor4 :=
  { out with data := fun b c i j => out.data b c i j + residual.data b c i j }

/-- Value semantics of `res_out * se_out` where the gate has spatial size
(1,1): the gate entry of the same batch and channel is broadcast over the
spatial dimensions. -/
def mulGate (a gate : Tensor4) : Tensor4 :=
  { a with data := fun b c i j => a.data b c i j * gate.data b c 0 0 }

/-- Parameters of nn.Linear (with bias, the default used everywhere). -/
structure LinearParams where
  inFeatures : Nat
  outFeatures : Nat
  weight : Nat → Nat → ℝ
  bias : Nat → ℝ

/-- Value semantics of nn.Linear. -/
def linearApply (p : LinearParams) (v : Vec2) : Vec2 :=
  ⟨v.batch, p.outFeatures,
    fun b o => p.bias o + ∑ j ∈ Finset.range p.inFeatures, p.weight o j * v.data b j⟩

/-- Value semantics of ReLU on a rank-2 tensor. -/
def relu1 (v : Vec2) : Vec2 :=
  { v with data := fun b f => max 0 (v.data b f) }

/-- The logistic sigmoid over the reals. -/
noncomputable def sigmoid (x : ℝ) : ℝ :=
  1 / (1 + Real.exp (-x))

/-- Value semantics of nn.Sigmoid on a rank-2 tensor. -/
noncomputable def sigmoid1 (v : Vec2) : Vec2 :=
  { v with data := fun b f => sigmoid (v.data b f) }

/-- Value semantics of nn.AdaptiveAvgPool2d((1,1)): the spatial mean of
each channel, at spatial size (1,1). -/
noncomputable def adaptiveAvgPool11 (x : Tensor4) : Tensor4 :=
  ⟨x.batch, x.channels, 1, 1,
    fun b c _ _ =>
      (∑ i ∈ Finset.range x.height, ∑ j ∈ Finset.range x.width, x.data b c i j) /
        (x.height * x.width)⟩

/-- Value semantics of Flatten: row-major flattening of the non-batch
dimensions. -/
def flattenV (x : Tensor4) : Vec2 :=
  ⟨x.batch, x.channels * x.height * x.width,
    fun b f => x.data b (f / (x.height * x.width)) (f % (x.height * x.width) / x.width)
      (f % x.width)⟩

/-- Weight data for the two linear layers of a SqueezeExcitationBlock. -/
structure SEInitData where
  w1 : Nat → Nat → ℝ
  b1 : Nat → ℝ
  w2 : Nat → Nat → ℝ
  b2 : Nat → ℝ

/-- Parameters of SqueezeExcitationBlock. -/
structure SEParams where
  inChannels : Nat
  reducedChannelSize : Nat
  lin1 : LinearParams
  lin2 : LinearParams

/-- SqueezeExcitationBlock.__init__: reduced_channel_size is in_channels
floor-divided by reduction_ratio; the first linear layer maps in_channels
to that size and the second maps it back. -/
def SEParams.build (inChannels reductionRatio : Nat) (d : SEInitData) : SEParams :=
  let reduced := inChannels / reductionRatio
  ⟨inChannels, reduced,
    ⟨inChannels, reduced, d.w1, d.b1⟩,
    ⟨reduced, inChannels, d.w2, d.b2⟩⟩

/-- Value semantics of SqueezeExcitationBlock.forward: pool, flatten, two
linear layers with ReLU between, sigmoid, then a view back to the input's
batch and channel counts at spatial size (1,1). -/
noncomputable def seForward (p : SEParams) (X : Tensor4) : Tensor4 :=
  let v := sigmoid1 (linearApply p.lin2 (relu1 (linearApply p.lin1
    (flattenV (adaptiveAvgPool11 X)))))
  ⟨X.batch, X.channels, 1, 1, fun b c _ _ => v.data b c⟩

/-- Weight data for the two convolutions and two batch norms of a
BasicBlock. -/
structure BasicInitData where
  w1 : Nat → Nat → Nat → Nat → ℝ
  bn1 : BNData
  w2 : Nat → Nat → Nat → Nat → ℝ
  bn2 : BNData

/-- Parameters of BasicBlock. -/
structure BasicBlockParams where
  inChannels : Nat
  outChannels : Nat
  conv1 : Conv2dParams
  bn1 : BatchNorm2dParams
  conv2 : Conv2dParams
  bn2 : BatchNorm2dParams

/-- BasicBlock.__init__: a 3x3 conv with the given stride and groups
followed by batch norm over out_channels, then a 3x3 stride-1 conv with
batch norm over out_channels. -/
def BasicBlockParams.build (cin cout stride groups : Nat) (d : BasicInitData) :
    BasicBlockParams :=
  ⟨cin, cout,
    ⟨cin, cout, 3, stride, 1, groups, d.w1⟩, mkBN cout d.bn1,
    ⟨cout, cout, 3, 1, 1, groups, d.w2⟩, mkBN cout d.bn2⟩

/-- Value semantics of BasicBlock.forward. -/
def basicForward (p : BasicBlockParams) (X : Tensor4) : Tensor4 :=
  batchNorm2dApply p.bn2 (conv2dApply p.conv2
    (reluT (batchNorm2dApply p.bn1 (conv2dApply p.conv1 X))))

/-- The transform module held by a ResidualBlock: the default BasicBlock,
or any caller-supplied module, modelled as an arbitrary tensor map. -/
inductive TransformBlock where
  | basic (p : BasicBlockParams)
  | custom (f : Tensor4 → Tensor4)

/-- Value semantics of the transform module. -/
def TransformBlock.forward : TransformBlock → Tensor4 → Tensor4
  | .basic p, X => basicForward p X
  | .custom f, X => f X

/-- Weight data for the downsample path of a ResidualBlock. -/
structure DownInitData where
  w : Nat → Nat → Nat → Nat → ℝ
  bn : BNData

/-- Parameters of the downsample path: 1x1 convolution then batch norm. -/
structure DownsamplePath where
  conv : Conv2dParams
  bn : BatchNorm2dParams

/-- Value semantics of the downsample path. -/
def DownsamplePath.forward (d : DownsamplePath) (X : Tensor4) : Tensor4 :=
  batchNorm2dApply d.bn (conv2dApply d.conv X)

/-- Parameters of a ResidualBlock. -/
structure ResidualBlock where
  inChannels : Nat
  outChannels : Nat
  downsample : Option DownsamplePath
  block : TransformBlock

/-- ResidualBlock.__init__: stride 2 exactly when the channel counts
differ; the downsample path (1x1 conv with that stride and no bias, then
batch norm over cout) exists exactly when the stride is not 1; the
transform defaults to BasicBlock(cin, cout, stride) when none is given. -/
def ResidualBlock.build (cin cout : Nat) (blk : Option TransformBlock)
    (dd : DownInitData) (bd : BasicInitData) : ResidualBlock :=
  let stride := if cin ≠ cout then 2 else 1
  { inChannels := cin
    outChannels := cout
    downsample :=
      if stride ≠ 1 then some ⟨⟨cin, cout, 1, stride, 0, 1, dd.w⟩, mkBN cout dd.bn⟩
      else none
    block := blk.getD (.basic (BasicBlockParams.build cin cout stride 1 bd)) }

/-- Value semantics of ResidualBlock.forward, transcribed line by line:
residual = x; out = block.forward(x); the downsample, when present, is
applied to the residual; out += residual; ReLU. -/
def ResidualBlock.forward (rb : ResidualBlock) (x : Tensor4) : Tensor4 :=
  let residual := x
  let out := rb.block.forward x
  let residual := match rb.downsample with
    | some d => d.forward residual
    | none => residual
  reluT (addInplace out residual)

/-- Parameters of SE_ResModule. -/
structure SE_ResModule where
  block : ResidualBlock
  se_block : SEParams

/-- SE_ResModule.__init__: the gate is a SqueezeExcitationBlock over the
wrapped block's out_channels with the given reduction ratio. -/
def SE_ResModule.build (block : ResidualBlock) (reductionRatio : Nat)
    (sd : SEInitData) : SE_ResModule :=
  ⟨block, SEParams.build block.outChannels reductionRatio sd⟩

/-- Value semantics of SE_ResModule.forward, transcribed line by line:
residual = X; res_out = block.forward(X) (the wrapped block's complete
forward); se_out = se_block.forward(res_out); out = res_out * se_out; the
wrapped block's downsample, when present, is applied to X as the residual;
out += residual; ReLU. -/
noncomputable def SE_ResModule.forward (m : SE_ResModule) (X : Tensor4) : Tensor4 :=
  let residual := X
  let res_out := m.block.forward X
  let se_out := seForward m.se_block res_out
  let out := mulGate res_out se_out
  let residual := match m.block.downsample with
    | some d => d.forward X
    | none => residual
  reluT (addInplace out residual)

/-- Modelled from the spec text of claim C7 for comparison with the code:
res_out is taken to be the wrapped block's TRANSFORM output (not its whole
forward), the gate is computed from that transform output, and the
residual is the wrapped block's downsample of X when present, X otherwise. -/
noncomputable def seModuleClaimFormula (m : SE_ResModule) (X : Tensor4) : Tensor4 :=
  let t := m.block.block.forward X
  let gate := seForward m.se_block t
  let residual := match m.block.downsample with
    | some d => d.forward X
    | none => X
  reluT (addInplace (mulGate t gate) residual)

/-- Weight data for the five linear layers of the decoder head. -/
structure DecInitData where
  w1 : Nat → Nat → ℝ
  b1 : Nat → ℝ
  w2 : Nat → Nat → ℝ
  b2 : Nat → ℝ
  w3 : Nat → Nat → ℝ
  b3 : Nat → ℝ
  w4 : Nat → Nat → ℝ
  b4 : Nat → ℝ
  w5 : Nat → Nat → ℝ
  b5 : Nat → ℝ

/-- Parameters of the decoder head of object_classifier. -/
structure DecoderParams where
  l1 : LinearParams
  l2 : LinearParams
  l3 : LinearParams
  l4 : LinearParams
  l5 : LinearParams

/-- The fixed decoder head of object_classifier.__init__: linear layers
512-256, 256-128, 128-64, 64-32, 32-1. -/
def DecoderParams.build (d : DecInitData) : DecoderParams :=
  ⟨⟨512, 256, d.w1, d.b1⟩, ⟨256, 128, d.w2, d.b2⟩, ⟨128, 64, d.w3, d.b3⟩,
    ⟨64, 32, d.w4, d.b4⟩, ⟨32, 1, d.w5, d.b5⟩⟩

/-- Value semantics of the decoder head: pool, flatten, the five linear
layers with ReLU between them, and a final sigmoid. -/
noncomputable def decodeApply (p : DecoderParams) (X : Tensor4) : Vec2 :=
  sigmoid1 (linearApply p.l5 (relu1 (linearApply p.l4 (relu1 (linearApply p.l3
    (relu1 (linearApply p.l2 (relu1 (linearApply p.l1
      (flattenV (adaptiveAvgPool11 X)))))))))))

/-- Parameters of object_classifier: an encoder module (any tensor map)
and the decoder head. -/
structure object_classifier where
  encoder : Tensor4 → Tensor4
  decoder : DecoderParams

/-- object_classifier.encode. -/
def object_classifier.encode (m : object_classifier) (X : Tensor4) : Tensor4 :=
  m.encoder X

/-- object_classifier.decode. -/
noncomputable def object_classifier.decode (m : object_classifier) (X : Tensor4) : Vec2 :=
  decodeApply m.decoder X

/-- object_classifier.forward: decode after encode. -/
noncomputable def object_classifier.forward (m : object_classifier) (X : Tensor4) : Vec2 :=
  m.decode (m.encode X)

/-- The all-zero rank-4 weight function. -/
noncomputable def zeroW4 : Nat → Nat → Nat → Nat → ℝ := fun _ _ _ _ => 0

/-- The all-zero rank-2 weight function. -/
noncomputable def zeroW2 : Nat → Nat → ℝ := fun _ _ => 0

/-- The all-zero rank-1 weight function. -/
noncomputable def zeroW1 : Nat → ℝ := fun _ => 0

/-- The all-one rank-1 weight function. -/
noncomputable def oneW1 : Nat → ℝ := fun _ => 1

/-- The constant-two rank-1 weight function. -/
noncomputable def twoW1 : Nat → ℝ := fun _ => 2

/-- Batch norm data acting as the identity: weight 1, bias 0, mean 0,
inverse standard deviation 1. -/
noncomputable def bnIdentity : BNData := ⟨oneW1, zeroW1, zeroW1, oneW1⟩

/-- Batch norm data adding two: weight 1, bias 2, mean 0, inverse
standard deviation 1. -/
noncomputable def bnPlusTwo : BNData := ⟨oneW1, twoW1, zeroW1, oneW1⟩

/-- BasicBlock weights with zero convolutions, an identity first batch
norm and a second batch norm that outputs the constant 2. -/
noncomputable def cexBasic : BasicInitData := ⟨zeroW4, bnIdentity, zeroW4, bnPlusTwo⟩

/-- Downsample weights (zero convolution, identity batch norm). -/
noncomputable def cexDown : DownInitData := ⟨zeroW4, bnIdentity⟩

/-- Squeeze-excitation weights with both linear layers zero. -/
noncomputable def cexSEData : SEInitData := ⟨zeroW2, zeroW1, zeroW2, zeroW1⟩

/-- A concrete ResidualBlock(1, 1) whose supplied BasicBlock transform
computes the constant tensor 2. -/
noncomputable def cexRB : ResidualBlock :=
  ResidualBlock.build 1 1 (some (.basic (BasicBlockParams.build 1 1 1 1 cexBasic)))
    cexDown cexBasic

/-- A concrete SE_ResModule(cexRB, reduction_ratio 1) with zero linear
weights, so its gate is the constant sigmoid 0 = 1/2. -/
noncomputable def cexMod : SE_ResModule := SE_ResModule.build cexRB 1 cexSEData

/-- A concrete (1,1,1,1) tensor with every entry 2. -/
noncomputable def cexX : Tensor4 := ⟨1, 1, 1, 1, fun _ _ _ _ => 2⟩

/-- A concrete (1,16,2,2) all-zero tensor. -/
noncomputable def wX8 : Tensor4 := ⟨1, 16, 2, 2, fun _ _ _ _ => 0⟩

/-- A concrete encoder mapping everything to an all-zero (1,512,1,1)
tensor. -/
noncomputable def wEnc : Tensor4 → Tensor4 := fun _ => ⟨1, 512, 1, 1, fun _ _ _ _ => 0⟩

/-- Decoder weights with every linear layer zero. -/
noncomputable def zeroDec : DecInitData :=
  ⟨zeroW2, zeroW1, zeroW2, zeroW1, zeroW2, zeroW1, zeroW2, zeroW1, zeroW2, zeroW1⟩

/-- The sigmoid is strictly positive on the reals. -/
theorem sigmoid_pos (x : ℝ) : 0 < sigmoid x := by
  unfold sigmoid
  positivity

/-- The sigmoid is strictly below one on the reals. -/
theorem sigmoid_lt_one (x : ℝ) : sigmoid x < 1 := by
  unfold sigmoid
  rw [div_lt_one (by positivity)]
  have h := Real.exp_pos (-x)
  linarith

/-- A convolution with all-zero weights outputs zero at every entry. -/
theorem conv_zero_weight (cin cout k s p g : Nat) (t : Tensor4) (b c i j : Nat) :
    (conv2dApply ⟨cin, cout, k, s, p, g, zeroW4⟩ t).data b c i j = 0 := by
  simp [conv2dApply, zeroW4]

/-- The concrete BasicBlock of the counterexample computes the constant
tensor 2 on every input. -/
theorem cex_transform_const (t : Tensor4) (b c i j : Nat) :
    ((TransformBlock.basic (BasicBlockParams.build 1 1 1 1 cexBasic)).forward t).data b c i j
      = 2 := by
  simp [TransformBlock.forward, basicForward, BasicBlockParams.build, batchNorm2dApply,
    mkBN, cexBasic, bnPlusTwo, bnIdentity, oneW1, zeroW1, twoW1, conv_zero_weight]

/-- The concrete squeeze-excitation block of the counterexample computes
the constant gate 1/2 on every input. -/
theorem cex_gate_half (t : Tensor4) (b c i j : Nat) :
    (seForward (SEParams.build 1 1 cexSEData) t).data b c i j = 1 / 2 := by
  simp [seForward, SEParams.build, sigmoid1, linearApply, relu1, cexSEData, zeroW2,
    zeroW1, sigmoid, Real.exp_zero]
  norm_num

/-- The concrete ResidualBlock of the counterexample outputs the constant
4 on the constant-2 input (ReLU of 2 + 2). -/
theorem cex_resout (b c i j : Nat) : (cexRB.forward cexX).data b c i j = 4 := by
  have ht := cex_transform_const cexX b c i j
  have hb : cexRB.block = TransformBlock.basic (BasicBlockParams.build 1 1 1 1 cexBasic) :=
    rfl
  have hd : cexRB.downsample = none := rfl
  simp only [ResidualBlock.forward, hd, reluT, addInplace]
  rw [hb, ht]
  have hx : cexX.data b c i j = 2 := rfl
  rw [hx, max_eq_right (by norm_num : (0:ℝ) ≤ 2 + 2)]
  norm_num

/-- C6: for every ResidualBlock and every input x, forward(x) equals
ReLU(transform(x) + residual), where the residual is downsample(x) when
the downsample path exists and x otherwise. -/
theorem residual_forward_spec (rb : ResidualBlock) (x : Tensor4) :
    rb.forward x = reluT (addInplace (rb.block.forward x)
      (match rb.downsample with
       | some d => d.forward x
       | none => x)) := rfl

/-- C7 (amended): for every SE_ResModule and every input X, forward(X)
equals ReLU(block.forward(X) * gate + residual), where block.forward is
the wrapped residual block's complete forward pass (already containing its
own shortcut addition and ReLU), the gate is the squeeze-excitation of
that complete output, and the residual is block.downsample(X) when the
wrapped block has a downsample path and X otherwise, so that shortcut
contribution enters a second time. -/
theorem se_module_forward_spec (m : SE_ResModule) (X : Tensor4) :
    m.forward X = reluT (addInplace
      (mulGate (m.block.forward X) (seForward m.se_block (m.block.forward X)))
      (match m.block.downsample with
       | some d => d.forward X
       | none => X)) := rfl

/-- C7 (counterexample): a concrete SE_ResModule and input on which the
code's forward differs from the claimed formula built on the wrapped
block's transform output: the code yields 4 and the claim yields 3. -/
theorem se_module_transform_claim_false :
    (cexMod.forward cexX).data 0 0 0 0
      ≠ (seModuleClaimFormula cexMod cexX).data 0 0 0 0 := by
  have hblock : cexMod.block = cexRB := rfl
  have hse : cexMod.se_block = SEParams.build 1 1 cexSEData := rfl
  have hdown : cexMod.block.downsample = none := rfl
  have hx : cexX.data 0 0 0 0 = 2 := rfl
  have hL : (cexMod.forward cexX).data 0 0 0 0 = 4 := by
    simp only [SE_ResModule.forward, hdown, reluT, addInplace, mulGate]
    rw [hblock, cex_resout 0 0 0 0, hse, cex_gate_half, hx]
    rw [max_eq_right (by norm_num : (0:ℝ) ≤ 4 * (1 / 2) + 2)]
    norm_num
  have hR : (seModuleClaimFormula cexMod cexX).data 0 0 0 0 = 3 := by
    simp only [seModuleClaimFormula, hdown, reluT, addInplace, mulGate]
    have hb : cexMod.block.block
        = TransformBlock.basic (BasicBlockParams.build 1 1 1 1 cexBasic) := rfl
    rw [hb, cex_transform_const cexX 0 0 0 0, hse, cex_gate_half, hx]
    rw [max_eq_right (by norm_num : (0:ℝ) ≤ 2 * (1 / 2) + 2)]
    norm_num
  rw [hL, hR]
  norm_num

/-- C4: for every ResNeXtBlock(cin, cout, cardinality), the transform is a
BottleneckBlock with mid_channels = cin // 2, groups = cardinality and
stride = cin // cout; with the default cardinality the group count is 32. -/
theorem resnext_transform_config (cin cout cardinality : Nat) :
    (ResNeXtBlockCfg cin cout cardinality).block
      = TransformCfg.bottleneck cin cout (cin / cout) cardinality (cin / 2)
    ∧ (ResNeXtBlockCfgDefault cin cout).block
      = TransformCfg.bottleneck cin cout (cin / cout) 32 (cin / 2) :=
  ⟨rfl, rfl⟩

/-- C5: for every ResidualBlock(cin, cout), the downsample path exists
exactly when cin and cout differ; when it exists it is a 1x1 convolution
of stride 2 mapping cin to cout channels followed by batch normalization
over cout; and when cin equals cout the shortcut applied in forward is the
identity. -/
theorem residual_downsample_iff (cin cout : Nat) (blk : Option TransformBlock)
    (dd : DownInitData) (bd : BasicInitData) :
    ((ResidualBlock.build cin cout blk dd bd).downsample.isSome ↔ cin ≠ cout)
    ∧ (∀ d, (ResidualBlock.build cin cout blk dd bd).downsample = some d →
        d.conv.cin = cin ∧ d.conv.cout = cout ∧ d.conv.kernel = 1 ∧ d.conv.stride = 2
        ∧ d.conv.padding = 0 ∧ d.conv.groups = 1 ∧ d.bn.numFeatures = cout)
    ∧ (cin = cout → ∀ x, (ResidualBlock.build cin cout blk dd bd).forward x
        = reluT (addInplace ((ResidualBlock.build cin cout blk dd bd).block.forward x) x)) := by
  by_cases hc : cin = cout
  · subst hc
    refine ⟨by simp [ResidualBlock.build], by simp [ResidualBlock.build], ?_⟩
    intro _ x
    simp [ResidualBlock.build, ResidualBlock.forward]
  · refine ⟨by simp [ResidualBlock.build, hc], ?_, fun h => absurd h hc⟩
    intro d hd
    simp [ResidualBlock.build, hc] at hd
    subst hd
    exact ⟨rfl, rfl, rfl, rfl, rfl, rfl, rfl⟩

/-- C5 (witness): at cin 3, cout 64 the downsample path exists, and at
cin = cout = 7 the forward shortcut is the identity. -/
theorem residual_downsample_iff_witness :
    (ResidualBlock.build 3 64 none cexDown cexBasic).downsample.isSome
    ∧ (ResidualBlock.build 7 7 none cexDown cexBasic).forward cexX
      = reluT (addInplace
          ((ResidualBlock.build 7 7 none cexDown cexBasic).block.forward cexX) cexX) :=
  ⟨(residual_downsample_iff 3 64 none cexDown cexBasic).1.mpr (by decide),
   (residual_downsample_iff 7 7 none cexDown cexBasic).2.2 rfl cexX⟩

/-- C8: for every SqueezeExcitationBlock built over channel count cin and
every input with cin channels, the output has the input's batch size,
cin channels and spatial size (1,1), and every output entry lies strictly
between 0 and 1. -/
theorem se_block_gate_range (cin r : Nat) (sd : SEInitData) (X : Tensor4)
    (h : X.channels = cin) :
    (seForward (SEParams.build cin r sd) X).batch = X.batch
    ∧ (seForward (SEParams.build cin r sd) X).channels = cin
    ∧ (seForward (SEParams.build cin r sd) X).height = 1
    ∧ (seForward (SEParams.build cin r sd) X).width = 1
    ∧ ∀ b c i j, 0 < (seForward (SEParams.build cin r sd) X).data b c i j
        ∧ (seForward (SEParams.build cin r sd) X).data b c i j < 1 :=
  ⟨rfl, h, rfl, rfl, fun _ _ _ _ => ⟨sigmoid_pos _, sigmoid_lt_one _⟩⟩

/-- C8 (witness): the gate of a concrete 16-channel block on a concrete
(1,16,2,2) input is strictly between 0 and 1. -/
theorem se_block_gate_range_witness :
    0 < (seForward (SEParams.build 16 16 cexSEData) wX8).data 0 0 0 0
    ∧ (seForward (SEParams.build 16 16 cexSEData) wX8).data 0 0 0 0 < 1 :=
  (se_block_gate_range 16 16 cexSEData wX8 rfl).2.2.2.2 0 0 0 0

/-- C10: for every object_classifier (any encoder, decoder built by the
constructor) and every input X whose encoding supplies 512 channels,
forward(X) = decode(encode(X)), the output has exactly one feature per
batch element, every output entry lies strictly between 0 and 1, and the
decoder shape-checks on the encoder output shape, producing one scalar
per batch element. -/
theorem classifier_forward_scalar (enc : Tensor4 → Tensor4) (dd : DecInitData)
    (X : Tensor4) (h : (enc X).channels = 512) :
    object_classifier.forward ⟨enc, DecoderParams.build dd⟩ X
      = object_classifier.decode ⟨enc, DecoderParams.build dd⟩
          (object_classifier.encode ⟨enc, DecoderParams.build dd⟩ X)
    ∧ (object_classifier.forward ⟨enc, DecoderParams.build dd⟩ X).features = 1
    ∧ (∀ b, 0 < (object_classifier.forward ⟨enc, DecoderParams.build dd⟩ X).data b 0
        ∧ (object_classifier.forward ⟨enc, DecoderParams.build dd⟩ X).data b 0 < 1)
    ∧ decoderShape ⟨(enc X).batch, (enc X).channels, (enc X).height, (enc X).width⟩
        = some ⟨(enc X).batch, 1⟩ := by
  refine ⟨rfl, rfl, fun b => ⟨sigmoid_pos _, sigmoid_lt_one _⟩, ?_⟩
  rw [h]
  simp [decoderShape, linearShape]

/-- C10 (witness): a concrete classifier with a constant (1,512,1,1)
encoder produces an output entry strictly between 0 and 1. -/
theorem classifier_forward_scalar_witness :
    0 < (object_classifier.forward ⟨wEnc, DecoderParams.build zeroDec⟩ cexX).data 0 0
    ∧ (object_classifier.forward ⟨wEnc, DecoderParams.build zeroDec⟩ cexX).data 0 0 < 1 :=
  (classifier_forward_scalar wEnc zeroDec cexX rfl).2.2.1 0

/-- C1: constructing object_classifier with encoder None fails, because
the attribute named encoder_se_resnet does not exist on the class
backends (whose se_resnet attribute does exist and is the
SE_ResModule(ResidualBlock) stack). -/
theorem default_encoder_attribute_missing :
    objectClassifierSelectEncoder none = none
    ∧ backendsGetattr seResnetName = some seResnetShape :=
  ⟨rfl, rfl⟩

/-- C2 (counterexample): feeding shape (1,3,224,224) through the
se_resnet backend does not yield shape (1,512,7,7). -/
theorem se_resnet_shape_claim_false :
    seResnetShape ⟨1, 3, 224, 224⟩ ≠ some ⟨1, 512, 7, 7⟩ := by decide

/-- C2 (amended): feeding shape (1,3,224,224) through the se_resnet
backend yields shape (1,512,14,14): only the four channel-widening stages
halve the spatial size (224, 112, 56, 28, 28, 14). -/
theorem se_resnet_shape_224 :
    seResnetShape ⟨1, 3, 224, 224⟩ = some ⟨1, 512, 14, 14⟩ := by decide

/-- C3: BottleneckBlock.forward fails whenever mid_channels differs from
out_channels, because conv1 is followed by batch normalization over
out_channels instead of mid_channels: on BottleneckBlock(4, 8) (default
mid 2) with input shape (1,4,4,4) the forward shape check fails, and in
consequence the whole se_resneXt backend fails on (1,3,224,224). -/
theorem bottleneck_bn_out_channels_fails :
    (bottleneckBuildCfg 4 8 1 1 none).shape ⟨1, 4, 4, 4⟩ = none
    ∧ seResneXtShape ⟨1, 3, 224, 224⟩ = none := by decide

/-- C9 (counterexample): SqueezeExcitationBlock(8, 16) has reduced
channel size 0, yet it is constructed and its forward shape-checks on a
concrete (1,8,4,4) input, so construction does not fail. -/
theorem se_zero_width_constructs :
    (SECfg.build 8 16).reducedChannelSize = 0
    ∧ seShape (SECfg.build 8 16) ⟨1, 8, 4, 4⟩ = some ⟨1, 8, 1, 1⟩ := by decide

/-- C9 (amended): whenever in_channels // reduction_ratio rounds to 0,
the SqueezeExcitationBlock is still constructed, with a zero-width
bottleneck, and its forward still shape-checks on every input with
matching channel count; the source performs no validation. -/
theorem se_zero_width_shape (cin r B H W : Nat) (h : cin / r = 0) :
    (SECfg.build cin r).reducedChannelSize = 0
    ∧ seShape (SECfg.build cin r) ⟨B, cin, H, W⟩ = some ⟨B, cin, 1, 1⟩ := by
  constructor
  · simpa [SECfg.build] using h
  · simp [seShape, linearShape, SECfg.build]

/-- C9 (witness): SqueezeExcitationBlock(9, 16) on a (2,9,5,7) input. -/
theorem se_zero_width_shape_witness :
    (SECfg.build 9 16).reducedChannelSize = 0
    ∧ seShape (SECfg.build 9 16) ⟨2, 9, 5, 7⟩ = some ⟨2, 9, 1, 1⟩ :=
  se_zero_width_shape 9 16 2 5 7 (by decide)
